import Mathlib

/-!
Shallow embedding of the aggregation protocol of a movie-review backend.

Documents are modelled as plain records; the review collection is a
`List Review`.  Object ids are `Nat`.  The mongoose save/remove document
middleware of `src/models/Movie.js` (the `Review` schema) is modelled as
explicit functions over the state of the review collection at the moment
the hook runs: a pre-save hook runs BEFORE the document reaches the
collection, and a pre-remove hook runs BEFORE the document leaves it, so
the `find` queries inside them see the collection without the new
document (on create) and still containing the removed one (on delete).

`Math.round(x * 10) / 10` on a non-negative number is modelled exactly on
`ℚ` as `⌊x * 10 + 1/2⌋ / 10` (round half-up to one decimal).
-/

set_option autoImplicit false

namespace MovieReview

/-- One review document (the `Review` schema of `src/models/Movie.js`). -/
structure Review where
  id : Nat
  user : Nat
  movie : Nat
  rating : Nat
  reviewText : String
  spoiler : Bool
  helpful : Nat
  likes : List Nat
  dislikes : List Nat
deriving Repr, DecidableEq

/-- The cached aggregate fields of a `Movie` document. -/
structure MovieAgg where
  averageRating : ℚ
  totalRatings : Nat
  totalReviews : Nat
deriving Repr, DecidableEq

/-- The cached aggregate fields of a `User` document. -/
structure UserAgg where
  totalReviews : Nat
  averageRating : ℚ
deriving Repr, DecidableEq

/-- `Math.round(x * 10) / 10` for non-negative `x`: round half-up to one
decimal place, computed exactly on the rationals (`Rat.floor` is the
floor function on `ℚ`). -/
def round1 (q : ℚ) : ℚ := ((q * 10 + 1 / 2).floor : ℚ) / 10

/-- `reviews.reduce((sum, review) => sum + review.rating, 0)`. -/
def sumRatings (rs : List Review) : Nat :=
  rs.foldl (fun s r => s + r.rating) 0

/-- Movie-side body of the pre-save hook (`src/models/Movie.js` lines
274-279): no emptiness guard, so an empty review list makes
`totalRating / allReviews.length` a `NaN`, which then fails the movie
validator `averageRating >= 0` and aborts the save; that failure path is
`none`. -/
def movieSaveStats (rs : List Review) : Option MovieAgg :=
  if rs = [] then none
  else some
    { averageRating := round1 ((sumRatings rs : ℚ) / rs.length)
      totalRatings := rs.length
      totalReviews := rs.length }

/-- User-side body of the pre-save hook (`src/models/Movie.js` lines
286-289); here the average IS guarded by `userReviews.length > 0`. -/
def userSaveStats (rs : List Review) : UserAgg :=
  { totalReviews := rs.length
    averageRating :=
      if 0 < rs.length then round1 ((sumRatings rs : ℚ) / rs.length) else 0 }

/-- The pre-save hook of the review schema: recompute the movie document
and the user document aggregates from the review collection AS IT IS AT
HOOK TIME (`db`), filtered by the movie and user of the document `r`
being saved.  Returns `none` when the movie recomputation fails (empty
movie set, the NaN path), in which case the save is aborted. -/
def preSaveHook (db : List Review) (r : Review) :
    Option (MovieAgg × UserAgg) :=
  match movieSaveStats (db.filter (fun x => x.movie == r.movie)) with
  | none => none
  | some m => some (m, userSaveStats (db.filter (fun x => x.user == r.user)))

/-- Movie-side body of the pre-remove hook (`src/models/Movie.js` lines
308-318): guarded, resets to zeros when the queried list is empty. -/
def movieRemoveStats (rs : List Review) : MovieAgg :=
  if 0 < rs.length then
    { averageRating := round1 ((sumRatings rs : ℚ) / rs.length)
      totalRatings := rs.length
      totalReviews := rs.length }
  else
    { averageRating := 0, totalRatings := 0, totalReviews := 0 }

/-- User-side body of the pre-remove hook (`src/models/Movie.js` lines
325-332). -/
def userRemoveStats (rs : List Review) : UserAgg :=
  { totalReviews := rs.length
    averageRating :=
      if 0 < rs.length then round1 ((sumRatings rs : ℚ) / rs.length) else 0 }

/-- The pre-remove hook: recompute both aggregates from the review
collection AS IT IS AT HOOK TIME, which still contains the document
being removed. -/
def preRemoveHook (db : List Review) (r : Review) : MovieAgg × UserAgg :=
  (movieRemoveStats (db.filter (fun x => x.movie == r.movie)),
   userRemoveStats (db.filter (fun x => x.user == r.user)))

/-- The state an operation touches: the review collection, the movie
document loaded by `Movie.findById` and the document of the acting or
authoring user loaded by `User.findById` inside the hooks. -/
structure St where
  reviews : List Review
  movie : MovieAgg
  user : UserAgg
deriving Repr, DecidableEq

/-- Typed outcomes of the route handlers. -/
inductive Err where
  | duplicateReview
  | selfReaction
  | notAuthorized
  | notFound
  | saveError
deriving Repr, DecidableEq

/-- `POST /api/reviews` (`src/routes/reviews.js` lines 139-186), after
validation and the movie-existence check: reject a duplicate
(user, movie) pair, otherwise build the new review and save it, which
fires the pre-save hook against the collection BEFORE the insert and
then inserts the document.  On any error path nothing is written. -/
def createReview (st : St) (actor movieId rating : Nat) (text : String)
    (sp : Bool) (newId : Nat) : Option Err × St :=
  match st.reviews.find? (fun r => r.user == actor && r.movie == movieId) with
  | some _ => (some .duplicateReview, st)
  | none =>
    let r : Review :=
      { id := newId, user := actor, movie := movieId, rating := rating
        reviewText := text, spoiler := sp, helpful := 0
        likes := [], dislikes := [] }
    match preSaveHook st.reviews r with
    | none => (some .saveError, st)
    | some (m, u) =>
      (none, { reviews := st.reviews ++ [r], movie := m, user := u })

/-- The fields `PUT /api/reviews/:reviewId` reads out of the request
body; `extra` stands for any other keys the body carries, which the
handler never reads. -/
structure UpdateBody where
  rating : Option Nat
  reviewText : Option String
  spoiler : Option Bool
  extra : List (String × String)
deriving Repr, DecidableEq

/-- `updateFields` construction plus `Object.assign(review, updateFields)`
(`src/routes/reviews.js` lines 213-231). -/
def applyUpdateFields (b : UpdateBody) (r : Review) : Review :=
  let r1 := match b.rating with
    | some v => { r with rating := v }
    | none => r
  let r2 := match b.reviewText with
    | some v => { r1 with reviewText := v }
    | none => r1
  match b.spoiler with
  | some v => { r2 with spoiler := v }
  | none => r2

/-- `PUT /api/reviews/:reviewId` (`src/routes/reviews.js` lines 205-248):
look the review up, check ownership, assign the update fields and save.
The save fires the pre-save hook while the collection still holds the
OLD document, then persists the modified one. -/
def updateReview (st : St) (actor reviewId : Nat) (b : UpdateBody) :
    Option Err × St :=
  match st.reviews.find? (fun r => r.id == reviewId) with
  | none => (some .notFound, st)
  | some review =>
    if review.user = actor then
      let review' := applyUpdateFields b review
      match preSaveHook st.reviews review' with
      | none => (some .saveError, st)
      | some (m, u) =>
        (none,
         { reviews := st.reviews.map
             (fun r => if r.id = reviewId then review' else r)
           movie := m, user := u })
    else (some .notAuthorized, st)

/-- `DELETE /api/reviews/:reviewId` (`src/routes/reviews.js` lines
253-278): look the review up, check ownership, `review.remove()`, which
fires the pre-remove hook while the document is still in the collection
and then deletes it. -/
def deleteReview (st : St) (actor reviewId : Nat) : Option Err × St :=
  match st.reviews.find? (fun r => r.id == reviewId) with
  | none => (some .notFound, st)
  | some review =>
    if review.user = actor then
      let (m, u) := preRemoveHook st.reviews review
      (none,
       { reviews := st.reviews.filter (fun r => !(r.id == reviewId))
         movie := m, user := u })
    else (some .notAuthorized, st)

/-- `reviewSchema.methods.toggleReaction` (`src/models/Movie.js` lines
343-368), the pure part: the like/dislike list transformation.
`indexOf`/`splice(i, 1)` on the first occurrence is `List.erase`. -/
def toggleReaction (likes dislikes : List Nat) (userId : Nat)
    (reactionType : String) : List Nat × List Nat :=
  if reactionType = "like" then
    if userId ∈ likes then
      (likes.erase userId, dislikes)
    else
      (likes ++ [userId],
       if userId ∈ dislikes then dislikes.erase userId else dislikes)
  else if reactionType = "dislike" then
    if userId ∈ dislikes then
      (likes, dislikes.erase userId)
    else
      ((if userId ∈ likes then likes.erase userId else likes),
       dislikes ++ [userId])
  else (likes, dislikes)

/-- `POST /api/reviews/:reviewId/reaction` (`src/routes/reviews.js` lines
287-322): look the review up, reject a reaction on the actor own review,
otherwise toggle the reaction and save (the save fires the pre-save hook
again). -/
def reactToReview (st : St) (actor reviewId : Nat) (rt : String) :
    Option Err × St :=
  match st.reviews.find? (fun r => r.id == reviewId) with
  | none => (some .notFound, st)
  | some review =>
    if review.user = actor then (some .selfReaction, st)
    else
      let p := toggleReaction review.likes review.dislikes actor rt
      let review' := { review with likes := p.1, dislikes := p.2 }
      match preSaveHook st.reviews review' with
      | none => (some .saveError, st)
      | some (m, u) =>
        (none,
         { reviews := st.reviews.map
             (fun r => if r.id = reviewId then review' else r)
           movie := m, user := u })

/-- Shape of the `stats` object literal of `GET /api/users/:userId/stats`
(`src/unnamed/part_000`). -/
structure StatsObj where
  totalReviews : Nat
  averageRating : ℚ
  totalLikes : Nat
  totalDislikes : Nat
deriving Repr, DecidableEq

/-- `totalLikes: { $sum: { $size: '$likes' } }` over the reviews of the
user. -/
def statsTotalLikes (db : List Review) (userId : Nat) : Nat :=
  ((db.filter (fun r => r.user == userId)).map (fun r => r.likes.length)).sum

/-- `totalDislikes: { $sum: { $size: '$likes' } }` — the source sums the
size of the `likes` array here as well. -/
def statsTotalDislikes (db : List Review) (userId : Nat) : Nat :=
  ((db.filter (fun r => r.user == userId)).map (fun r => r.likes.length)).sum

/-- `GET /api/users/:userId/stats`: the `$group` aggregation over the
reviews of the user followed by the `stats` object literal.  The literal
names `totalReviews` and `averageRating` twice; as in a js object
literal, the later assignment (from the cached user document) overwrites
the earlier one (from the fresh aggregation). -/
def getUserStats (db : List Review) (user : UserAgg) (userId : Nat) :
    StatsObj :=
  let userReviews := db.filter (fun r => r.user == userId)
  let s0 : StatsObj :=
    { totalReviews := userReviews.length
      averageRating :=
        round1 (if 0 < userReviews.length then
          (sumRatings userReviews : ℚ) / userReviews.length else 0)
      totalLikes := statsTotalLikes db userId
      totalDislikes := statsTotalDislikes db userId }
  let s1 := { s0 with totalReviews := user.totalReviews }
  { s1 with averageRating := user.averageRating }


/-! Helper lemmas shared by the claim theorems. -/

theorem movieSaveStats_of_ne_nil (rs : List Review) (h : rs ≠ []) :
    movieSaveStats rs = some
      { averageRating := round1 ((sumRatings rs : ℚ) / rs.length)
        totalRatings := rs.length
        totalReviews := rs.length } := by
  rw [movieSaveStats, if_neg h]

theorem applyUpdateFields_id (b : UpdateBody) (r : Review) :
    (applyUpdateFields b r).id = r.id := by
  unfold applyUpdateFields
  cases b.rating <;> cases b.reviewText <;> cases b.spoiler <;> rfl

theorem applyUpdateFields_user (b : UpdateBody) (r : Review) :
    (applyUpdateFields b r).user = r.user := by
  unfold applyUpdateFields
  cases b.rating <;> cases b.reviewText <;> cases b.spoiler <;> rfl

theorem applyUpdateFields_movie (b : UpdateBody) (r : Review) :
    (applyUpdateFields b r).movie = r.movie := by
  unfold applyUpdateFields
  cases b.rating <;> cases b.reviewText <;> cases b.spoiler <;> rfl

theorem applyUpdateFields_likes (b : UpdateBody) (r : Review) :
    (applyUpdateFields b r).likes = r.likes := by
  unfold applyUpdateFields
  cases b.rating <;> cases b.reviewText <;> cases b.spoiler <;> rfl

theorem applyUpdateFields_dislikes (b : UpdateBody) (r : Review) :
    (applyUpdateFields b r).dislikes = r.dislikes := by
  unfold applyUpdateFields
  cases b.rating <;> cases b.reviewText <;> cases b.spoiler <;> rfl

theorem applyUpdateFields_helpful (b : UpdateBody) (r : Review) :
    (applyUpdateFields b r).helpful = r.helpful := by
  unfold applyUpdateFields
  cases b.rating <;> cases b.reviewText <;> cases b.spoiler <;> rfl

/-! Concrete fixtures for the counterexample evaluations. -/

/-- Fixture for C1: movie 3 carries one review, rated 4 by user 7; its
cached aggregates are consistent, and user 8 (the acting user of the
create) has no reviews yet. -/
def rC1 : Review := ⟨1, 7, 3, 4, "solid film overall", false, 0, [], []⟩

def stC1 : St := ⟨[rC1], ⟨4, 1, 1⟩, ⟨0, 0⟩⟩

/-- C1: the claim fails on the code.  The pre-save hook recomputes the
movie aggregates from the review collection BEFORE the new review is
inserted, so after user 8 successfully adds a second review (rated 2) to
movie 3, two reviews reference the movie but the cached aggregates still
read averageRating = 4, totalRatings = 1, totalReviews = 1 instead of
the claimed averageRating = 3, totalRatings = 2, totalReviews = 2. -/
theorem create_review_stale_aggregates :
    (createReview stC1 8 3 2 "not my kind of movie" false 2).1 = none ∧
    ((createReview stC1 8 3 2 "not my kind of movie" false 2).2.reviews.filter
        (fun r => r.movie == 3)).length = 2 ∧
    (createReview stC1 8 3 2 "not my kind of movie" false 2).2.movie =
      ⟨4, 1, 1⟩ ∧
    (createReview stC1 8 3 2 "not my kind of movie" false 2).2.movie.totalReviews
      ≠ 2 := by
  refine ⟨?_, ?_, ?_, ?_⟩
  all_goals simp [createReview, stC1, rC1, preSaveHook, movieSaveStats,
    userSaveStats, sumRatings, List.find?, List.filter]
  all_goals norm_num [round1, Rat.floor_def']

/-- Fixture for C2: movie 5 carries reviews rated 4 (user 10) and 5
(user 11), cached aggregates 4.5 / 2 / 2; user 12 (the acting user of
the create step) has no reviews. -/
def rC2a : Review := ⟨1, 10, 5, 4, "a strong second act", false, 0, [], []⟩

def rC2b : Review := ⟨2, 11, 5, 5, "an instant classic film", false, 0, [], []⟩

def stC2 : St := ⟨[rC2a, rC2b], ⟨9 / 2, 2, 2⟩, ⟨0, 0⟩⟩

/-- State after user 12 adds a third review rated 3 to movie 5. -/
def stC2' : St := (createReview stC2 12 5 3 "it was just okay" false 3).2

/-- Same state, with the user slot now holding the document of user 11
(the author of the rating-5 review), which the delete step loads. -/
def stC2'' : St := { stC2' with user := ⟨1, 5⟩ }

/-- C2: the scenario fails on the code.  After the third review (rated 3)
is added, the movie still reads averageRating = 4.5, totalReviews = 2
(the pre-save hook saw only the two old reviews), not the claimed 4.0 and
3; after the rating-5 review is deleted, the movie reads
averageRating = 4.0, totalReviews = 3 (the pre-remove hook still saw all
three reviews), not the claimed 3.5 and 2. -/
theorem scenario_aggregates_diverge :
    (createReview stC2 12 5 3 "it was just okay" false 3).1 = none ∧
    stC2'.movie = ⟨9 / 2, 2, 2⟩ ∧
    stC2'.movie.averageRating ≠ 4 ∧
    stC2'.movie.totalReviews ≠ 3 ∧
    (deleteReview stC2'' 11 2).1 = none ∧
    (deleteReview stC2'' 11 2).2.movie = ⟨4, 3, 3⟩ ∧
    (deleteReview stC2'' 11 2).2.movie.averageRating ≠ 7 / 2 ∧
    (deleteReview stC2'' 11 2).2.movie.totalReviews ≠ 2 := by
  refine ⟨?_, ?_, ?_, ?_, ?_, ?_, ?_, ?_⟩
  all_goals simp [createReview, deleteReview, stC2, stC2', stC2'', rC2a, rC2b,
    preSaveHook, preRemoveHook, movieSaveStats, userSaveStats,
    movieRemoveStats, userRemoveStats, sumRatings, List.find?, List.filter]
  all_goals norm_num [round1, Rat.floor_def']

/-- Fixture for C3: movie 3 carries exactly one review, rated 4 by
user 7, and both the movie and user 7 cached aggregates are consistent
with that single review. -/
def rC3 : Review := ⟨1, 7, 3, 4, "solid film overall", false, 0, [], []⟩

def stC3 : St := ⟨[rC3], ⟨4, 1, 1⟩, ⟨1, 4⟩⟩

/-- C3: the claim fails on the code.  Deleting the only review of
movie 3 succeeds and empties the review collection, yet the pre-remove
hook queried the collection while the review was still present, so the
movie keeps averageRating = 4, totalRatings = 1, totalReviews = 1 and
the authoring user keeps totalReviews = 1, averageRating = 4 — neither
aggregate is reset to zero. -/
theorem delete_only_review_not_reset :
    (deleteReview stC3 7 1).1 = none ∧
    (deleteReview stC3 7 1).2.reviews = [] ∧
    (deleteReview stC3 7 1).2.movie = ⟨4, 1, 1⟩ ∧
    (deleteReview stC3 7 1).2.movie ≠ ⟨0, 0, 0⟩ ∧
    (deleteReview stC3 7 1).2.user = ⟨1, 4⟩ ∧
    (deleteReview stC3 7 1).2.user ≠ ⟨0, 0⟩ := by
  refine ⟨?_, ?_, ?_, ?_, ?_, ?_⟩
  all_goals simp [deleteReview, stC3, rC3, preRemoveHook, movieRemoveStats,
    userRemoveStats, sumRatings, List.find?, List.filter]
  all_goals norm_num [round1, Rat.floor_def']

/-- C4: confirmed.  A successful review update (owner match) leaves the
cached aggregate fields of the authoring user unchanged, provided they
were consistent with the user review set beforehand: the pre-save hook
rewrites them, but from the collection as it stood before the edit was
persisted, reproducing the old values. -/
theorem update_review_user_agg_unchanged
    (st : St) (actor reviewId : Nat) (b : UpdateBody) (r : Review)
    (hfind : st.reviews.find? (fun x => x.id == reviewId) = some r)
    (hown : r.user = actor)
    (hcons : st.user =
      userSaveStats (st.reviews.filter (fun x => x.user == r.user))) :
    (updateReview st actor reviewId b).1 = none ∧
    (updateReview st actor reviewId b).2.user = st.user := by
  have hmem : r ∈ st.reviews := List.mem_of_find?_eq_some hfind
  have hmov : (applyUpdateFields b r).movie = r.movie :=
    applyUpdateFields_movie b r
  have husr : (applyUpdateFields b r).user = r.user :=
    applyUpdateFields_user b r
  have hne :
      st.reviews.filter (fun x => x.movie == (applyUpdateFields b r).movie)
        ≠ [] := by
    intro hnil
    have hrin :
        r ∈ st.reviews.filter
          (fun x => x.movie == (applyUpdateFields b r).movie) :=
      List.mem_filter.mpr ⟨hmem, by simp [hmov]⟩
    rw [hnil] at hrin
    exact absurd hrin (List.not_mem_nil r)
  simp only [updateReview, hfind, if_pos hown, preSaveHook,
    movieSaveStats_of_ne_nil _ hne, husr]
  exact ⟨trivial, hcons.symm⟩

/-- Fixture for C4 and C10: movie 3 carries one review, rated 4 by
user 7, and all cached aggregates are consistent. -/
def rC4 : Review := ⟨1, 7, 3, 4, "solid film overall", false, 0, [9], [5]⟩

def stC4 : St := ⟨[rC4], ⟨4, 1, 1⟩, ⟨1, 4⟩⟩

/-- Body for the C4 witness: user 7 changes the rating to 2. -/
def bC4 : UpdateBody := ⟨some 2, none, none, []⟩

/-- C4 witness: the theorem applied at a concrete state. -/
theorem update_review_user_agg_unchanged_witness :
    (updateReview stC4 7 1 bC4).1 = none ∧
    (updateReview stC4 7 1 bC4).2.user = stC4.user :=
  update_review_user_agg_unchanged stC4 7 1 bC4 rC4 rfl rfl (by
    simp [stC4, rC4, userSaveStats, sumRatings, List.filter]
    norm_num [round1, Rat.floor_def'])

/-- C5: confirmed.  When the collection already holds a review by the
acting user for the target movie, the create handler returns the
DuplicateReview outcome and the state — review collection, movie
aggregates and user aggregates — is untouched. -/
theorem duplicate_review_rejected
    (st : St) (actor movieId rating newId : Nat) (text : String) (sp : Bool)
    (h : ∃ r ∈ st.reviews, r.user = actor ∧ r.movie = movieId) :
    createReview st actor movieId rating text sp newId =
      (some .duplicateReview, st) := by
  obtain ⟨r, hr, h1, h2⟩ := h
  have hs : (st.reviews.find?
      (fun x => x.user == actor && x.movie == movieId)).isSome := by
    rw [List.find?_isSome]
    exact ⟨r, hr, by simp [h1, h2]⟩
  obtain ⟨ex, hex⟩ := Option.isSome_iff_exists.mp hs
  simp only [createReview, hex]

/-- Fixture for C5: user 7 already reviewed movie 3. -/
def rC5 : Review := ⟨1, 7, 3, 4, "solid film overall", false, 0, [], []⟩

def stC5 : St := ⟨[rC5], ⟨4, 1, 1⟩, ⟨1, 4⟩⟩

/-- C5 witness: the theorem applied at a concrete state. -/
theorem duplicate_review_rejected_witness :
    createReview stC5 7 3 5 "best film of the year" false 9 =
      (some .duplicateReview, stC5) :=
  duplicate_review_rejected stC5 7 3 5 9 "best film of the year" false
    ⟨rC5, by simp [stC5], rfl, rfl⟩

/-- C6: confirmed.  For nodup, disjoint reaction lists: toggling "like"
for a user in the dislikes list moves them from dislikes to likes, and
symmetrically for "dislike"; toggling a reaction the user already has
removes them from that list; and after a toggle with any reaction string
the two lists still share no member. -/
theorem toggle_reaction_mutual_exclusion
    (likes dislikes : List Nat) (u : Nat)
    (hnl : likes.Nodup) (hnd : dislikes.Nodup)
    (hdisj : ∀ v, v ∈ likes → v ∉ dislikes) :
    (u ∈ dislikes →
      u ∈ (toggleReaction likes dislikes u "like").1 ∧
      u ∉ (toggleReaction likes dislikes u "like").2) ∧
    (u ∈ likes →
      u ∈ (toggleReaction likes dislikes u "dislike").2 ∧
      u ∉ (toggleReaction likes dislikes u "dislike").1) ∧
    (u ∈ likes → u ∉ (toggleReaction likes dislikes u "like").1) ∧
    (u ∈ dislikes → u ∉ (toggleReaction likes dislikes u "dislike").2) ∧
    (∀ rt : String, ∀ v,
      v ∈ (toggleReaction likes dislikes u rt).1 →
      v ∉ (toggleReaction likes dislikes u rt).2) := by
  refine ⟨?_, ?_, ?_, ?_, ?_⟩
  · intro hu
    have hul : u ∉ likes := fun hl => hdisj u hl hu
    simp [toggleReaction, hu, hul]
    exact hnd.not_mem_erase
  · intro hu
    have hud : u ∉ dislikes := hdisj u hu
    simp [toggleReaction, hu, hud]
    exact hnl.not_mem_erase
  · intro hu
    simp [toggleReaction, hu]
    exact hnl.not_mem_erase
  · intro hu
    simp [toggleReaction, hu]
    exact hnd.not_mem_erase
  · intro rt v hv
    by_cases h1 : rt = "like"
    · subst h1
      by_cases h2 : u ∈ likes
      · simp [toggleReaction, h2] at hv ⊢
        exact hdisj v (List.mem_of_mem_erase hv)
      · by_cases h3 : u ∈ dislikes
        · simp [toggleReaction, h2, h3] at hv ⊢
          intro hv2
          have hvd : v ∈ dislikes := List.mem_of_mem_erase hv2
          rcases hv with h4 | h4
          · exact hdisj v h4 hvd
          · subst h4
            exact hnd.not_mem_erase hv2
        · simp [toggleReaction, h2, h3] at hv ⊢
          intro hvd
          rcases hv with h4 | h4
          · exact hdisj v h4 hvd
          · subst h4
            exact h3 hvd
    · by_cases h1' : rt = "dislike"
      · subst h1'
        by_cases h2 : u ∈ dislikes
        · simp [toggleReaction, h2] at hv ⊢
          exact fun hv2 => hdisj v hv (List.mem_of_mem_erase hv2)
        · by_cases h3 : u ∈ likes
          · simp [toggleReaction, h2, h3] at hv ⊢
            refine ⟨fun hvd => hdisj v (List.mem_of_mem_erase hv) hvd,
              fun he => ?_⟩
            subst he
            exact hnl.not_mem_erase hv
          · simp [toggleReaction, h2, h3] at hv ⊢
            refine ⟨fun hvd => hdisj v hv hvd, fun he => ?_⟩
            subst he
            exact h3 hv
      · simp [toggleReaction, h1, h1'] at hv ⊢
        exact hdisj v hv

/-- C6 witness: user 2 sits in the dislikes list; toggling "like" moves
them into likes and out of dislikes. -/
theorem toggle_reaction_mutual_exclusion_witness :
    2 ∈ (toggleReaction [1] [2] 2 "like").1 ∧
    2 ∉ (toggleReaction [1] [2] 2 "like").2 :=
  (toggle_reaction_mutual_exclusion [1] [2] 2 (by decide) (by decide)
    (by simp)).1 (by decide)

/-- C7: confirmed.  A reaction request whose actor is the author of the
review is answered with the SelfReaction outcome and the state — in
particular the likes and dislikes lists of the review — is untouched. -/
theorem self_reaction_rejected
    (st : St) (actor reviewId : Nat) (rt : String) (r : Review)
    (hfind : st.reviews.find? (fun x => x.id == reviewId) = some r)
    (hown : r.user = actor) :
    reactToReview st actor reviewId rt = (some .selfReaction, st) := by
  simp only [reactToReview, hfind, if_pos hown]

/-- Fixture for C7: review 1 on movie 3 is authored by user 7. -/
def rC7 : Review := ⟨1, 7, 3, 4, "solid film overall", false, 0, [9], [5]⟩

def stC7 : St := ⟨[rC7], ⟨4, 1, 1⟩, ⟨1, 4⟩⟩

/-- C7 witness: the theorem applied at a concrete state. -/
theorem self_reaction_rejected_witness :
    reactToReview stC7 7 1 "like" = (some .selfReaction, stC7) :=
  self_reaction_rejected stC7 7 1 "like" rC7 rfl rfl

/-- C8: confirmed.  The user-statistics aggregation computes
totalDislikes by summing the sizes of the likes lists (the same
expression as totalLikes), so the two figures returned by the stats
route coincide for every user and review collection. -/
theorem stats_total_dislikes_eq_total_likes
    (db : List Review) (user : UserAgg) (userId : Nat) :
    (getUserStats db user userId).totalDislikes =
      (getUserStats db user userId).totalLikes := rfl

/-- C9: confirmed.  In the stats object literal the keys totalReviews
and averageRating are assigned twice; the later assignments, taken from
the cached user document, win over the freshly aggregated values, so the
response always carries the cached aggregates. -/
theorem stats_cached_fields_override_fresh
    (db : List Review) (user : UserAgg) (userId : Nat) :
    (getUserStats db user userId).totalReviews = user.totalReviews ∧
    (getUserStats db user userId).averageRating = user.averageRating :=
  ⟨rfl, rfl⟩

/-- C10: confirmed.  A successful owner update leaves the user
reference, movie reference, likes list, dislikes list and helpful
counter of the stored review unchanged, whatever extra keys the request
body carries: the handler copies only rating, reviewText and spoiler
into the document. -/
theorem update_review_frame
    (st : St) (actor reviewId : Nat) (b : UpdateBody) (r : Review)
    (hfind : st.reviews.find? (fun x => x.id == reviewId) = some r)
    (hown : r.user = actor) :
    (updateReview st actor reviewId b).1 = none ∧
    ∀ x ∈ (updateReview st actor reviewId b).2.reviews, x.id = reviewId →
      x.user = r.user ∧ x.movie = r.movie ∧ x.likes = r.likes ∧
      x.dislikes = r.dislikes ∧ x.helpful = r.helpful := by
  have hmem : r ∈ st.reviews := List.mem_of_find?_eq_some hfind
  have hmov : (applyUpdateFields b r).movie = r.movie :=
    applyUpdateFields_movie b r
  have hne :
      st.reviews.filter (fun x => x.movie == (applyUpdateFields b r).movie)
        ≠ [] := by
    intro hnil
    have hrin :
        r ∈ st.reviews.filter
          (fun x => x.movie == (applyUpdateFields b r).movie) :=
      List.mem_filter.mpr ⟨hmem, by simp [hmov]⟩
    rw [hnil] at hrin
    exact absurd hrin (List.not_mem_nil r)
  simp only [updateReview, hfind, if_pos hown, preSaveHook,
    movieSaveStats_of_ne_nil _ hne]
  refine ⟨trivial, ?_⟩
  intro x hx hid
  rcases List.mem_map.mp hx with ⟨y, hy, hxy⟩
  by_cases hyid : y.id = reviewId
  · rw [if_pos hyid] at hxy
    subst hxy
    exact ⟨applyUpdateFields_user b r, applyUpdateFields_movie b r,
      applyUpdateFields_likes b r, applyUpdateFields_dislikes b r,
      applyUpdateFields_helpful b r⟩
  · rw [if_neg hyid] at hxy
    subst hxy
    exact absurd hid hyid

/-- Body for the C10 witness: every updatable field set, plus extra keys
that name protected fields. -/
def bC10 : UpdateBody :=
  ⟨some 5, some "actually a masterpiece on rewatch", some true,
   [("helpful", "999"), ("likes", "[8]")]⟩

/-- C10 witness: the theorem applied at a concrete state. -/
theorem update_review_frame_witness :
    (updateReview stC4 7 1 bC10).1 = none ∧
    ∀ x ∈ (updateReview stC4 7 1 bC10).2.reviews, x.id = 1 →
      x.user = rC4.user ∧ x.movie = rC4.movie ∧ x.likes = rC4.likes ∧
      x.dislikes = rC4.dislikes ∧ x.helpful = rC4.helpful :=
  update_review_frame stC4 7 1 bC10 rC4 rfl rfl

end MovieReview
